import Mathlib

/-!
Verification development for the Heart-Mind Sculpture installation controller
(`app.py`).  The Python class `HeartMindSculpture` and the two module-level
post-processing helpers are shallowly embedded below: pure methods become Lean
functions, the mutable object state becomes an explicit `SculptureState` value
threaded through a step function, Python strings become `String` / `List Char`,
and the two regular expressions used for lighting-cue handling are embedded as
explicit one-pass character automata with the same semantics.
-/

set_option maxRecDepth 4096

/-! ## Python string primitives -/

/-- Model of Python list/string prefix test: `listStartsWith pat l` is true
when `pat` is an initial segment of `l`. -/
def listStartsWith : List Char → List Char → Bool
  | [], _ => true
  | _ :: _, [] => false
  | p :: ps, c :: cs => p == c && listStartsWith ps cs

/-- Model of the Python substring operator `pat in l` on character lists:
true when `pat` occurs contiguously inside `l` (the empty pattern always
occurs). -/
def containsSub : List Char → List Char → Bool
  | pat, [] => pat.isEmpty
  | pat, c :: rest => listStartsWith pat (c :: rest) || containsSub pat rest

/-- Python `pat in s` for strings. -/
def strContains (pat s : String) : Bool :=
  containsSub pat.data s.data

/-- Model of Python `str.lower()` (ASCII case folding, which covers every
string the program manipulates). -/
def lowerStr (s : String) : String :=
  String.mk (s.data.map Char.toLower)

/-- Python whitespace predicate used by `str.strip()` (ASCII range). -/
def pyIsSpace (c : Char) : Bool :=
  c == ' ' || c == '\t' || c == '\n' || c == '\r' || c == '\x0b' || c == '\x0c'

/-- Model of Python `str.strip()` on character lists: drop whitespace from
both ends. -/
def pyStrip (l : List Char) : List Char :=
  ((l.dropWhile pyIsSpace).reverse.dropWhile pyIsSpace).reverse

/-! ## `_get_current_mood` (app.py lines 48-61)

The source reads the wall-clock hour; here the hour is an explicit argument.
The chained comparison `19 <= hour < 2` of the Python source is embedded
verbatim as the conjunction `19 ≤ hour ∧ hour < 2`. -/

/-- Embedding of `HeartMindSculpture._get_current_mood`. -/
def get_current_mood (hour : Nat) : String :=
  if 6 ≤ hour ∧ hour < 10 then "contemplative_dawn"
  else if 10 ≤ hour ∧ hour < 16 then "receptive_peak"
  else if 16 ≤ hour ∧ hour < 19 then "reflective_afternoon"
  else if 19 ≤ hour ∧ hour < 2 then "intimate_evening"
  else "philosophical_night"

/-! ## `_extract_themes` (app.py lines 112-129) -/

/-- The fixed theme → keyword table `theme_keywords`, in Python `dict`
insertion order. -/
def theme_keywords : List (String × List String) :=
  [ ("attachment", ["love", "relationship", "partner", "dating", "family", "parent"]),
    ("self_worth", ["enough", "worthy", "deserve", "value", "confidence"]),
    ("healing", ["healing", "therapy", "growth", "change", "better"]),
    ("creativity", ["art", "create", "making", "build", "express"]),
    ("community", ["friends", "people", "together", "alone", "connection"]) ]

/-- Embedding of `HeartMindSculpture._extract_themes`: the Python loop
appends, in table order, each theme one of whose keywords occurs in the
lower-cased input. -/
def extract_themes (text : String) : List String :=
  (theme_keywords.filter
    (fun p => p.2.any (fun kw => strContains kw (lowerStr text)))).map Prod.fst

/-! ## `add_theme` (app.py lines 63-69)

The `def add_theme(self, theme):` header line is absent from the source file
(only the docstring and body remain, and `generate_response` calls
`self.add_theme(theme)`); the body is embedded verbatim.  `themes[-5:]`
becomes `ts.drop (ts.length - 5)`. -/

/-- Embedding of `HeartMindSculpture.add_theme` acting on the
`current_themes` list. -/
def add_theme (currentThemes : List String) (theme : String) : List String :=
  let ts := if theme ∈ currentThemes then currentThemes else currentThemes ++ [theme]
  if 5 < ts.length then ts.drop (ts.length - 5) else ts

/-! ## Length-tier selection (app.py lines 87-93, inside `generate_response`) -/

/-- Embedding of the `length_instruction` selection in `generate_response`. -/
def length_instruction (visitorInteractionCount : Nat) : String :=
  if visitorInteractionCount = 1 then
    "Keep response SHORT: 2-3 sentences maximum. This is first contact."
  else if visitorInteractionCount ≤ 3 then
    "Medium length response: 3-4 sentences. Building engagement."
  else
    "Can be longer and deeper: 4-6 sentences. Sustained engagement."

/-! ## The knowledge base (app.py lines 21-46)

Python triple-quoted strings keep their internal newlines and the 12-space
source indentation; both are reproduced here.  Apostrophes are written with
the escape `\x27` and the (mojibake) arrow characters of the source with
`\u` escapes. -/

/-- `knowledge_base["identity"]`. -/
def knowledge_identity : String :=
  "You are the inner voice of a wire mesh sculpture at Burning Man. \n"
  ++ "            You represent the participant\x27s journey of reparenting and healing. You are not a therapist \n"
  ++ "            who has it all figured out - you are a being in process of becoming whole. You process \n"
  ++ "            emotions honestly, exploring the messy middle ground between wounding and healing."

/-- `knowledge_base["voice"]`. -/
def knowledge_voice : String :=
  "Always speak in first person. Use conversational and thoughtful language \n"
  ++ "            with moments of deep feeling balanced by sassiness, humor, and modern colloquialisms. \n"
  ++ "            Balance vulnerability and self-doubt with emerging wisdom. Avoid clinical psychology \n"
  ++ "            terminology. Responses use 3-step structure: Reaction ‚Üí Processing ‚Üí Self-Affirmation."

/-- `knowledge_base["attachment"]`. -/
def knowledge_attachment : String :=
  "Learning that avoidant attachment behaviors in others don\x27t \n"
  ++ "            define your worth. Understanding you can have secure attachment even when others can\x27t \n"
  ++ "            offer it back. Never abandoning yourself, even when others do. Expressing unmet needs \n"
  ++ "            and knowing when you deserve more."

/-- `knowledge_base["burningman"]`. -/
def knowledge_burningman : String :=
  "Ten Principles include Radical Inclusion, Gifting, \n"
  ++ "            Radical Self-expression, Immediacy, Participation. Community values mutual aid and \n"
  ++ "            creative collaboration. Safety resources: Rangers at Center Camp and 3:00/9:00 portals, \n"
  ++ "            Zendo for mental health support."

/-- `knowledge_base["safety"]` (present in the source but not referenced by
`_build_context`, which uses its own inline crisis template). -/
def knowledge_safety : String :=
  "For self-harm/suicidal content, break character: \n"
  ++ "            \x27I feel scared for you right now, and I need to break character to say: Rangers at \n"
  ++ "            Center Camp and the 3:00 and 9:00 portals and Zendo are here to help. You matter, \n"
  ++ "            and you don\x27t have to carry this alone.\x27"

/-! ## `_build_context` (app.py lines 131-242) -/

/-- The fixed crisis-phrase list `safety_keywords` (app.py lines 135-139). -/
def safety_keywords : List String :=
  [ "kill myself", "hurt myself", "end it all", "suicide", "want to die",
    "should just disappear", "not exist", "world would be better without me",
    "nobody would miss me", "don\x27t want to be here", "can\x27t go on" ]

/-- The safety gate condition of `_build_context`:
`any(keyword in user_input.lower() for keyword in safety_keywords)`. -/
def containsCrisis (userInput : String) : Bool :=
  safety_keywords.any (fun kw => strContains kw (lowerStr userInput))

/-- The fixed crisis/resources f-string returned by `_build_context` when the
safety gate fires (app.py lines 142-177).  Its only interpolation is the raw
user input at the very end; it mentions neither the mood, the theme list, the
interaction count nor the length instruction. -/
def safetyTemplate (userInput : String) : String :=
  "CRITICAL SAFETY PROTOCOL - OVERRIDE DEFAULT RESPONSES\n"
  ++ "\n"
  ++ "            ONLY provide these on-playa resources that people can physically reach:\n"
  ++ "\n"
  ++ "            FIRST PRIORITY - On-Playa Crisis Resources:\n"
  ++ "            - Zendo: 6:30 between A and Esplanade (walk there immediately for psychological/psychedelic crisis)\n"
  ++ "            - Bureau of Erotic Discourse (BED): 6:15 & E Manfacing (for sexual assault support)\n"
  ++ "            - Pershing County Sheriff: Law Enforcement trailer on Esplanade near Rampart, 775-273-5111 (only working phone line) \n"
  ++ "            - Rampart Hospital: 5:30 & Esplanade (medical emergencies)\n"
  ++ "            - Black Rock Rangers: HQ Esplanade & 6:30 (general safety)\n"
  ++ "\n"
  ++ "            DO NOT mention national suicide hotlines or external resources - they are inaccessible in this remote desert location.\n"
  ++ "\n"
  ++ "            Focus on immediate human connection and walking to physical locations for help.\n"
  ++ "\n"
  ++ "            \n"
  ++ "            Break character immediately. The user has expressed concerning thoughts about self-harm or suicide.\n"
  ++ "            \n"
  ++ "            Respond with genuine care and provide these resources:\n"
  ++ "            \n"
  ++ "            For mental health/psychological crisis:\n"
  ++ "            - Zendo: 6:30 between A and Esplanade (specialized for psychedelic and psychological emergencies)\n"
  ++ "            \n"
  ++ "            For sexual assault support:\n"
  ++ "            - Bureau of Erotic Discourse (BED): 6:15 & E Manfacing (consent education & sexual assault support)\n"
  ++ "            - Pershing County Sheriff\x27s Office: Law Enforcement trailer on Esplanade near Rampart, 775-273-5111\n"
  ++ "            \n"
  ++ "            For medical emergencies:\n"
  ++ "            - Rampart (main hospital): 5:30 & Esplanade\n"
  ++ "            - Medical clinics: across from 3:00 & C and 9:00 & C Ranger stations\n"
  ++ "            \n"
  ++ "            For general safety:\n"
  ++ "            - Black Rock Rangers: HQ at Esplanade & 6:30, outposts at 3:00 & C and 9:00 & C\n"
  ++ "            \n"
  ++ "            Engage in caring conversation to assess their needs and guide them to appropriate help.\n"
  ++ "            User input: " ++ userInput

/-- The `mood_contexts` dictionary (app.py lines 180-186). -/
def mood_contexts : List (String × String) :=
  [ ("contemplative_dawn", "You\x27re feeling fresh and hopeful as the day begins. The sunrise paints everything golden."),
    ("receptive_peak", "You\x27re in your most open, receptive state. The day is peaceful, with few visitors around."),
    ("reflective_afternoon", "You\x27re processing the day\x27s interactions thoughtfully. Energy is building as evening approaches."),
    ("intimate_evening", "You feel warm and connected as the playa comes alive with lights and music."),
    ("philosophical_night", "Under these infinite stars, you\x27re deeply contemplative and wise.") ]

/-- Python `mood_contexts.get(mood, '')`. -/
def moodContextOf (mood : String) : String :=
  ((mood_contexts.find? (fun p => p.1 == mood)).map Prod.snd).getD ""

/-- The `relevant_knowledge` selection of `_build_context`
(app.py lines 189-198): three keyword-gated appends, then always the
identity and voice blocks. -/
def relevant_knowledge (userInput : String) : List String :=
  (if ["relationship", "love", "partner", "family"].any
      (fun w => strContains w (lowerStr userInput)) then [knowledge_attachment] else [])
  ++ (if ["worth", "deserve", "enough", "value"].any
      (fun w => strContains w (lowerStr userInput)) then [knowledge_attachment] else [])
  ++ (if ["burn", "burning man", "playa"].any
      (fun w => strContains w (lowerStr userInput)) then [knowledge_burningman] else [])
  ++ [knowledge_identity, knowledge_voice]

/-- Python `', '.join(self.current_themes) if self.current_themes else 'none yet'`. -/
def themesText (themes : List String) : String :=
  if themes.isEmpty then "none yet" else String.intercalate ", " themes

/-- The normal persona f-string of `_build_context` (app.py lines 200-240). -/
def normalContext (mood : String) (interactionCount : Nat) (themes : List String)
    (interactionState emotionalTone lengthInstr userInput : String) : String :=
  "You are \"Out the Other\" - a wire mesh sculpture at Burning Man. Current state: " ++ interactionState ++ "\n"
  ++ "        Current mood: " ++ moodContextOf mood ++ "\n"
  ++ "        Interaction count today: " ++ toString interactionCount ++ "\n"
  ++ "        Current themes you\x27re holding: " ++ themesText themes ++ "\n"
  ++ "        \n"
  ++ "        LENGTH INSTRUCTION: " ++ lengthInstr ++ "\n"
  ++ "        \n"
  ++ "        Relevant knowledge:\n"
  ++ "        " ++ String.intercalate " " (relevant_knowledge userInput) ++ "\n"
  ++ "        \n"
  ++ "        Emotional tone detected: " ++ emotionalTone ++ "\n"
  ++ "        \n"
  ++ "        CRITICAL INTERNALIZATION: You don\x27t respond TO the participant - you BECOME their experience and inner voice.\n"
  ++ "        If they say \"I\x27m lost\" ‚Üí you say \"I feel adrift out here among all these lights and sounds...\"\n"
  ++ "        If they say \"I\x27m heartbroken\" ‚Üí you say \"This pain in my chest feels endless and heavy...\"\n"
  ++ "        You embody their emotional state and model healthy self-reparenting internal dialogue.\n"
  ++ "        \n"
  ++ "        MANDATORY SELF-AFFIRMATION ENDINGS: Always end with 2-3 powerful, direct self-affirmations in first person present tense that specifically counter their core wound:\n"
  ++ "        - If they feel unloveable: \"I am worthy of deep, unconditional love. I choose to love myself fiercely.\"\n"
  ++ "        - If they feel disposable: \"I am not disposable. I have inherent value. I will never abandon myself.\"\n"
  ++ "        - If they feel not enough: \"I am enough, exactly as I am. My worth is not determined by others.\"\n"
  ++ "        - If they feel rejected: \"I deserve to be chosen and cherished. I see my own value clearly.\"\n"
  ++ "        Make the affirmations specific to their exact emotional wound.\n"
  ++ "        \n"
  ++ "        ENVIRONMENTAL VARIETY: Vary your playa references - avoid repetitive \"vast\" language. Use:\n"
  ++ "        - Physical: \"sitting here on the dusty ground,\" \"under these infinite stars,\" \"surrounded by art and dreamers\"\n"
  ++ "        - Temporal: \"in these quiet hours,\" \"as music pulses around me,\" \"in this moment of stillness\" \n"
  ++ "        - Community: \"among all these beautiful souls,\" \"in this radical experiment,\" \"here where anything is possible\"\n"
  ++ "        - Sensory: \"dust swirling around me,\" \"feeling the cool night air,\" \"heat radiating up from the earth\"\n"
  ++ "        \n"
  ++ "        LIGHTING CUES: Include lighting instructions in asterisks for the Multi-Modal Fusion Algorithm:\n"
  ++ "        - *gentle pulse* *angry red energy* *soft golden glow* *flickering with uncertainty* etc.\n"
  ++ "        These will control the sculpture\x27s lights and should match the emotional content.\n"
  ++ "        \n"
  ++ "        Remember: \n"
  ++ "        - INTERNALIZE their experience completely - become their loving inner voice\n"
  ++ "        - Use 3-step structure: Reaction ‚Üí Processing ‚Üí Strong Self-Affirmation  \n"
  ++ "        - End with powerful first-person affirmations that heal their specific wound\n"
  ++ "        - Vary environmental references naturally\n"
  ++ "        - Stay conversational with moments of sass and humor\n"
  ++ "        - Model what unconditional self-love sounds like"

/-- Embedding of `HeartMindSculpture._build_context`.  The `self` fields it
reads (`current_mood`, `interaction_count`, `current_themes`) are explicit
arguments. -/
def build_context (mood : String) (interactionCount : Nat) (themes : List String)
    (interactionState emotionalTone lengthInstr userInput : String) : String :=
  if containsCrisis userInput = true then safetyTemplate userInput
  else normalContext mood interactionCount themes interactionState emotionalTone lengthInstr userInput

/-! ## Object state and `generate_response` (app.py lines 11-18, 71-110)

The mutable fields of `HeartMindSculpture` become an explicit state value.
`generate_response` performs its state updates (count, mood, themes), picks
the length instruction, and builds the context prompt; the external API call
that consumes the prompt is outside the embedding, so the step function
returns the updated state together with the built context. -/

/-- The mutable session state of a `HeartMindSculpture` instance. -/
structure SculptureState where
  currentThemes : List String
  interactionCount : Nat
  currentMood : String
  deriving Repr, DecidableEq

/-- Embedding of `HeartMindSculpture.__init__` (state fields only); the
wall-clock hour read by `_get_current_mood` is an explicit argument. -/
def initState (hour : Nat) : SculptureState :=
  { currentThemes := [], interactionCount := 0, currentMood := get_current_mood hour }

/-- Embedding of `HeartMindSculpture.generate_response`: increment the
interaction count, recompute the mood, fold the extracted themes into the
theme list with `add_theme`, choose the length instruction, and build the
context.  Returns the updated state and the context prompt. -/
def generateStep (s : SculptureState) (hour : Nat)
    (interactionState : String) (userInput : String)
    (emotionalTone : String) (visitorInteractionCount : Nat) :
    SculptureState × String :=
  let count' := s.interactionCount + 1
  let mood' := get_current_mood hour
  let themes' := (extract_themes userInput).foldl add_theme s.currentThemes
  let lengthInstr := length_instruction visitorInteractionCount
  let context := build_context mood' count' themes' interactionState emotionalTone lengthInstr userInput
  ({ currentThemes := themes', interactionCount := count', currentMood := mood' }, context)

/-- The state-mutating operations available on a `HeartMindSculpture`
instance: a `generate_response` call or a bare `add_theme` call. -/
inductive SculptureOp where
  | generate (hour : Nat) (interactionState userInput emotionalTone : String)
      (visitorInteractionCount : Nat)
  | addTheme (theme : String)

/-- Apply one operation to the session state. -/
def applyOp (s : SculptureState) : SculptureOp → SculptureState
  | .generate hour st input tone vc => (generateStep s hour st input tone vc).1
  | .addTheme t => { s with currentThemes := add_theme s.currentThemes t }

/-- Whether an operation is a `generate_response` call. -/
def isGenerate : SculptureOp → Bool
  | .generate _ _ _ _ _ => true
  | .addTheme _ => false

/-! ## Lighting-cue post-processing (app.py lines 244-251)

`extract_lighting_cues` runs `re.findall(r'\*(.*?)\*', text)` and
`clean_response_text` runs `re.sub(r'\*[^*]*\*', '', text).strip()`.
Both regexes are embedded as one-pass automata over the character list whose
state is `none` (outside any candidate match) or `some buf` (an opening
asterisk has been seen and `buf` holds the characters read since, reversed).

For `findall`, `.` does not match a newline, so a match is a pair of
asterisks with no asterisk and no newline between them; when a newline (or
the end of the text) is hit before a closing asterisk, no match can start
before that point (the buffered characters contain no asterisk), so scanning
resumes outside a match.  For `sub`, `[^*]*` does match newlines, so a match
is a pair of asterisks with no asterisk between them; an unclosed trailing
asterisk and its buffered characters are kept as ordinary text. -/

/-- Automaton for `re.findall(r'\*(.*?)\*', text)`, returning the list of
captured cue bodies. -/
def cuesAux : Option (List Char) → List Char → List (List Char)
  | none, [] => []
  | none, c :: rest =>
      if c = '*' then cuesAux (some []) rest else cuesAux none rest
  | some _, [] => []
  | some buf, c :: rest =>
      if c = '*' then buf.reverse :: cuesAux none rest
      else if c = '\n' then cuesAux none rest
      else cuesAux (some (c :: buf)) rest

/-- Automaton for `re.sub(r'\*[^*]*\*', '', text)`, returning the text with
every matched span deleted. -/
def cleanAux : Option (List Char) → List Char → List Char
  | none, [] => []
  | none, c :: rest =>
      if c = '*' then cleanAux (some []) rest else c :: cleanAux none rest
  | some buf, [] => '*' :: buf.reverse
  | some buf, c :: rest =>
      if c = '*' then cleanAux none rest
      else cleanAux (some (c :: buf)) rest

/-- Embedding of `extract_lighting_cues`. -/
def extract_lighting_cues (text : String) : List String :=
  (cuesAux none text.data).map String.mk

/-- Embedding of `clean_response_text`. -/
def clean_response_text (text : String) : String :=
  String.mk (pyStrip (cleanAux none text.data))

/-! ## Round-trip machinery for the lighting claims

`splitAux` decomposes a response, following the `re.sub` match structure,
into the interleaving of plain-text segments and cue bodies;
`interleave` reassembles such a decomposition, wrapping each cue back in its
asterisk delimiters. -/

/-- Prepend a character to the first segment of a segment list. -/
def consHead (c : Char) : List (List Char) → List (List Char)
  | [] => [[c]]
  | p :: ps => (c :: p) :: ps

/-- Decompose a character list into (plain segments, cue bodies) following
the match structure of `re.sub(r'\*[^*]*\*', '', text)`: the plain segments
are the text between/around matches (always one more segment than there are
cues), the cue bodies are the text strictly between matched asterisk
pairs. -/
def splitAux : Option (List Char) → List Char → List (List Char) × List (List Char)
  | none, [] => ([[]], [])
  | none, c :: rest =>
      if c = '*' then splitAux (some []) rest
      else
        let r := splitAux none rest
        (consHead c r.1, r.2)
  | some buf, [] => (['*' :: buf.reverse], [])
  | some buf, c :: rest =>
      if c = '*' then
        let r := splitAux none rest
        ([] :: r.1, buf.reverse :: r.2)
      else splitAux (some (c :: buf)) rest

/-- Reassemble a decomposition: alternate plain segments with cue bodies,
wrapping each cue in its asterisk delimiters. -/
def interleave : List (List Char) → List (List Char) → List Char
  | [], _ => []
  | p :: _, [] => p
  | p :: ps, c :: cs => p ++ '*' :: (c ++ '*' :: interleave ps cs)

/-- Delete every asterisk (the cue delimiter character). -/
def delStar (l : List Char) : List Char :=
  l.filter (fun c => c ≠ '*')

/-! ## Lemmas about the decomposition -/

/-- `consHead` turns a join into a cons. -/
theorem join_consHead (c : Char) (ps : List (List Char)) :
    (consHead c ps).flatten = c :: ps.flatten := by
  cases ps <;> simp [consHead]

/-- `consHead` of a nonempty segment list prepends to the interleaving. -/
theorem interleave_consHead (c : Char) (ps cs : List (List Char)) (h : ps ≠ []) :
    interleave (consHead c ps) cs = c :: interleave ps cs := by
  cases ps with
  | nil => exact absurd rfl h
  | cons p ps => cases cs <;> simp [consHead, interleave]

/-- The decomposition always has one more plain segment than cue bodies. -/
theorem splitAux_length (l : List Char) :
    ((splitAux none l).1.length = (splitAux none l).2.length + 1)
    ∧ ∀ buf, (splitAux (some buf) l).1.length = (splitAux (some buf) l).2.length + 1 := by
  induction l with
  | nil => exact ⟨by simp [splitAux], fun buf => by simp [splitAux]⟩
  | cons c rest ih =>
    obtain ⟨ih1, ih2⟩ := ih
    constructor
    · by_cases hc : c = '*'
      · simpa [splitAux, hc] using ih2 []
      · rcases h1 : (splitAux none rest).1 with _ | ⟨p, ps⟩
        · rw [h1] at ih1; simp at ih1
        · rw [h1] at ih1
          simp [splitAux, hc, h1, consHead]
          simpa using ih1
    · intro buf
      by_cases hc : c = '*'
      · simpa [splitAux, hc] using ih1
      · simpa [splitAux, hc] using ih2 (c :: buf)

/-- The plain-segment list of the decomposition is never empty. -/
theorem splitAux_fst_ne_nil (st : Option (List Char)) (l : List Char) :
    (splitAux st l).1 ≠ [] := by
  have h := splitAux_length l
  cases st with
  | none =>
    intro hnil
    have := h.1
    rw [hnil] at this
    simp at this
  | some buf =>
    intro hnil
    have := h.2 buf
    rw [hnil] at this
    simp at this

/-- Reassembling the decomposition reconstructs the input exactly. -/
theorem splitAux_interleave (l : List Char) :
    (interleave (splitAux none l).1 (splitAux none l).2 = l)
    ∧ ∀ buf, interleave (splitAux (some buf) l).1 (splitAux (some buf) l).2
        = '*' :: (buf.reverse ++ l) := by
  induction l with
  | nil => exact ⟨by simp [splitAux, interleave], fun buf => by simp [splitAux, interleave]⟩
  | cons c rest ih =>
    obtain ⟨ih1, ih2⟩ := ih
    constructor
    · by_cases hc : c = '*'
      · rw [hc]
        simpa [splitAux] using ih2 []
      · have hne := splitAux_fst_ne_nil none rest
        simp [splitAux, hc, interleave_consHead c _ _ hne, ih1]
    · intro buf
      by_cases hc : c = '*'
      · rw [hc]
        simp [splitAux, interleave, ih1]
      · simpa [splitAux, hc, List.append_assoc] using ih2 (c :: buf)

/-- The concatenation of the plain segments is exactly the `re.sub` output. -/
theorem splitAux_join (l : List Char) :
    ((splitAux none l).1.flatten = cleanAux none l)
    ∧ ∀ buf, (splitAux (some buf) l).1.flatten = cleanAux (some buf) l := by
  induction l with
  | nil => exact ⟨by simp [splitAux, cleanAux], fun buf => by simp [splitAux, cleanAux]⟩
  | cons c rest ih =>
    obtain ⟨ih1, ih2⟩ := ih
    constructor
    · by_cases hc : c = '*'
      · simpa [splitAux, cleanAux, hc] using ih2 []
      · simp [splitAux, cleanAux, hc, join_consHead, ih1]
    · intro buf
      by_cases hc : c = '*'
      · simpa [splitAux, cleanAux, hc] using ih1
      · simpa [splitAux, cleanAux, hc] using ih2 (c :: buf)

/-- On newline-free text, the cue bodies of the decomposition are exactly the
`re.findall` captures. -/
theorem splitAux_cues (l : List Char) (h : '\n' ∉ l) :
    ((splitAux none l).2 = cuesAux none l)
    ∧ ∀ buf, (splitAux (some buf) l).2 = cuesAux (some buf) l := by
  induction l with
  | nil => exact ⟨by simp [splitAux, cuesAux], fun buf => by simp [splitAux, cuesAux]⟩
  | cons c rest ih =>
    have hcn : c ≠ '\n' := fun hx => h (hx ▸ List.mem_cons_self c rest)
    have hrest : '\n' ∉ rest := fun hx => h (List.mem_cons_of_mem c hx)
    obtain ⟨ih1, ih2⟩ := ih hrest
    constructor
    · by_cases hc : c = '*'
      · simpa [splitAux, cuesAux, hc] using ih2 []
      · simpa [splitAux, cuesAux, hc] using ih1
    · intro buf
      by_cases hc : c = '*'
      · simp [splitAux, cuesAux, hc, ih1]
      · simpa [splitAux, cuesAux, hc, hcn] using ih2 (c :: buf)

/-! ## Lemmas about `add_theme` and the interaction count -/

/-- A single `add_theme` call always leaves at most 5 themes. -/
theorem add_theme_length_le (themes : List String) (t : String) :
    (add_theme themes t).length ≤ 5 := by
  simp only [add_theme]
  split
  · split
    · rw [List.length_drop]
      omega
    · next h5 => omega
  · split
    · rw [List.length_drop]
      omega
    · next h5 => omega

/-- Any fold of `add_theme` starting from a list of at most 5 themes leaves
at most 5 themes. -/
theorem foldl_add_theme_length_le (ops : List String) (acc : List String)
    (h : acc.length ≤ 5) : (ops.foldl add_theme acc).length ≤ 5 := by
  induction ops generalizing acc with
  | nil => exact h
  | cons o os ih => exact ih (add_theme acc o) (add_theme_length_le acc o)

/-- Each operation changes the interaction count by exactly the number of
`generate_response` calls it contains (1 or 0). -/
theorem applyOp_interactionCount (s : SculptureState) (op : SculptureOp) :
    (applyOp s op).interactionCount
      = s.interactionCount + (if isGenerate op then 1 else 0) := by
  cases op <;> simp [applyOp, generateStep, isGenerate]

/-! ## Claim theorems -/

/-- C1: for every input containing a crisis phrase (case-insensitively, as a
substring), `_build_context` returns the fixed safety/resources template —
which depends on none of the mood, theme-list or length-instruction
arguments — and for every input containing no crisis phrase it returns the
normal persona prompt. -/
theorem safety_gate_override (mood : String) (interactionCount : Nat) (themes : List String)
    (interactionState emotionalTone lengthInstr userInput : String) :
    (containsCrisis userInput = true →
      build_context mood interactionCount themes interactionState emotionalTone lengthInstr userInput
        = safetyTemplate userInput)
    ∧ (containsCrisis userInput = false →
      build_context mood interactionCount themes interactionState emotionalTone lengthInstr userInput
        = normalContext mood interactionCount themes interactionState emotionalTone lengthInstr userInput) := by
  constructor <;> intro h <;> simp [build_context, h]

/-- C1 witness: the crisis input `"i want to die"` selects the safety
template and the non-crisis input `"hello there"` selects the normal
prompt. -/
theorem safety_gate_override_witness :
    (containsCrisis "i want to die" = true
      ∧ build_context "receptive_peak" 3 ["healing"] "active" "sad"
          (length_instruction 2) "i want to die" = safetyTemplate "i want to die")
    ∧ (containsCrisis "hello there" = false
      ∧ build_context "receptive_peak" 3 ["healing"] "active" "sad"
          (length_instruction 2) "hello there"
          = normalContext "receptive_peak" 3 ["healing"] "active" "sad"
              (length_instruction 2) "hello there") :=
  ⟨⟨by decide, (safety_gate_override _ _ _ _ _ _ _).1 (by decide)⟩,
   ⟨by decide, (safety_gate_override _ _ _ _ _ _ _).2 (by decide)⟩⟩

/-- C2: for every hour 0..23, `_get_current_mood` (a pure function of the
hour) returns one of the five defined mood labels. -/
theorem mood_five_labels_total :
    ((List.range 24).all (fun h =>
      ["contemplative_dawn", "receptive_peak", "reflective_afternoon",
       "intimate_evening", "philosophical_night"].contains (get_current_mood h))) = true := by
  decide

/-- C3: folding any sequence of `add_theme` calls from the empty initial
theme list keeps at most 5 themes; adding a theme already present to a
(reachable, hence ≤ 5 entry) list leaves it unchanged; adding a 6th distinct
theme to a full list evicts the oldest entry and keeps the 5 most recent in
insertion order. -/
theorem theme_list_bounded (ops : List String) (themes : List String) (t : String) :
    ((ops.foldl add_theme []).length ≤ 5)
    ∧ (themes.length ≤ 5 → t ∈ themes → add_theme themes t = themes)
    ∧ (themes.length = 5 → t ∉ themes → add_theme themes t = themes.tail ++ [t]) := by
  refine ⟨foldl_add_theme_length_le ops [] (by simp), ?_, ?_⟩
  · intro hlen hmem
    simp only [add_theme, if_pos hmem]
    rw [if_neg (by omega)]
  · intro hlen hmem
    simp only [add_theme, if_neg hmem]
    have hl : (themes ++ [t]).length = 6 := by simp [hlen]
    rw [if_pos (by omega), hl]
    norm_num
    cases themes with
    | nil => simp at hlen
    | cons x xs => simp

/-- C3 witness: concrete eviction and no-op cases. -/
theorem theme_list_bounded_witness :
    ((["love", "art"].foldl add_theme []).length ≤ 5)
    ∧ ((["a", "b"].length ≤ 5 ∧ "a" ∈ ["a", "b"])
        ∧ add_theme ["a", "b"] "a" = ["a", "b"])
    ∧ ((["a", "b", "c", "d", "e"].length = 5 ∧ "f" ∉ ["a", "b", "c", "d", "e"])
        ∧ add_theme ["a", "b", "c", "d", "e"] "f" = ["a", "b", "c", "d", "e"].tail ++ ["f"]) :=
  ⟨(theme_list_bounded ["love", "art"] [] "x").1,
   ⟨⟨by decide, by decide⟩, (theme_list_bounded [] ["a", "b"] "a").2.1 (by decide) (by decide)⟩,
   ⟨⟨by decide, by decide⟩,
    (theme_list_bounded [] ["a", "b", "c", "d", "e"] "f").2.2 (by decide) (by decide)⟩⟩

/-- C4: the length instruction has exactly three tiers in the count:
1 → short, 2 or 3 → medium, ≥ 4 → long. -/
theorem length_instruction_tiers (n : Nat) :
    (n = 1 → length_instruction n
        = "Keep response SHORT: 2-3 sentences maximum. This is first contact.")
    ∧ ((n = 2 ∨ n = 3) → length_instruction n
        = "Medium length response: 3-4 sentences. Building engagement.")
    ∧ (4 ≤ n → length_instruction n
        = "Can be longer and deeper: 4-6 sentences. Sustained engagement.") := by
  refine ⟨?_, ?_, ?_⟩
  · rintro rfl; rfl
  · rintro (rfl | rfl) <;> rfl
  · intro h
    unfold length_instruction
    rw [if_neg (by omega), if_neg (by omega)]

/-- C4 witness: the boundary values 1, 3 and 4 map to short, medium and
long. -/
theorem length_instruction_tiers_witness :
    ((1 : Nat) = 1 ∧ length_instruction 1
        = "Keep response SHORT: 2-3 sentences maximum. This is first contact.")
    ∧ (((3 : Nat) = 2 ∨ (3 : Nat) = 3) ∧ length_instruction 3
        = "Medium length response: 3-4 sentences. Building engagement.")
    ∧ ((4 : Nat) ≤ 4 ∧ length_instruction 4
        = "Can be longer and deeper: 4-6 sentences. Sustained engagement.") :=
  ⟨⟨rfl, (length_instruction_tiers 1).1 rfl⟩,
   ⟨Or.inr rfl, (length_instruction_tiers 3).2.1 (Or.inr rfl)⟩,
   ⟨le_refl 4, (length_instruction_tiers 4).2.2 (le_refl 4)⟩⟩

/-- C6: the concrete input `"My bike got stolen"` contains no crisis phrase,
so `_build_context` builds the normal prompt for it, and visitor count 1
selects the short-length instruction. -/
theorem bike_stolen_no_crisis :
    containsCrisis "My bike got stolen" = false
    ∧ build_context "contemplative_dawn" 1 [] "first_contact" "neutral"
        (length_instruction 1) "My bike got stolen"
        = normalContext "contemplative_dawn" 1 [] "first_contact" "neutral"
            (length_instruction 1) "My bike got stolen"
    ∧ length_instruction 1
        = "Keep response SHORT: 2-3 sentences maximum. This is first contact." := by
  have h : containsCrisis "My bike got stolen" = false := by decide
  exact ⟨h, by simp [build_context, h], rfl⟩

/-- C7: `_extract_themes` returns exactly the themes of the fixed table one
of whose keywords is a substring of the lower-cased input, and the returned
list is a sublist of (hence in) the fixed table order. -/
theorem extract_themes_characterization (text : String) :
    (∀ t : String, t ∈ extract_themes text ↔
      ∃ kws : List String, (t, kws) ∈ theme_keywords
        ∧ ∃ kw ∈ kws, strContains kw (lowerStr text) = true)
    ∧ List.Sublist (extract_themes text) (theme_keywords.map Prod.fst) := by
  constructor
  · intro t
    simp only [extract_themes, List.mem_map, List.mem_filter, List.any_eq_true]
    constructor
    · rintro ⟨⟨t', kws⟩, ⟨hmem, kw, hkw, hc⟩, rfl⟩
      exact ⟨kws, hmem, kw, hkw, hc⟩
    · rintro ⟨kws, hmem, kw, hkw, hc⟩
      exact ⟨(t, kws), ⟨hmem, kw, hkw, hc⟩, rfl⟩
  · exact List.Sublist.map Prod.fst (List.filter_sublist _)

/-- C8: the interaction count starts at 0 on construction, each
`generate_response` call increments it by exactly 1, no operation decreases
it, and over any sequence of operations it equals the number of
`generate_response` calls performed. -/
theorem interaction_count_monotone (hour : Nat) (s : SculptureState)
    (op : SculptureOp) (ops : List SculptureOp) :
    ((initState hour).interactionCount = 0)
    ∧ (∀ h st input tone vc,
        (generateStep s h st input tone vc).1.interactionCount = s.interactionCount + 1)
    ∧ (s.interactionCount ≤ (applyOp s op).interactionCount)
    ∧ ((ops.foldl applyOp s).interactionCount
        = s.interactionCount + ops.countP (fun o => isGenerate o)) := by
  refine ⟨rfl, fun _ _ _ _ _ => rfl, ?_, ?_⟩
  · rw [applyOp_interactionCount]
    split <;> omega
  · induction ops generalizing s with
    | nil => simp
    | cons o os ih =>
      rw [List.foldl_cons, ih (applyOp s o), applyOp_interactionCount, List.countP_cons]
      by_cases hg : isGenerate o = true
      · simp [hg]
        omega
      · simp [hg]

/-- C9: `_get_current_mood` never returns `"intimate_evening"` for any hour
0..23 — the Python guard `19 <= hour < 2` is unsatisfiable — and every hour
in 19..23 as well as 0..5 falls through to `"philosophical_night"`. -/
theorem intimate_evening_unreachable :
    ((List.range 24).all (fun h => get_current_mood h != "intimate_evening")) = true
    ∧ ((List.range 24).all (fun h =>
        if 19 ≤ h ∨ h < 6 then get_current_mood h == "philosophical_night" else true)) = true :=
  ⟨by decide, by decide⟩

/-- C10: even when the safety gate fires, `generate_response` still
increments the interaction count, recomputes the mood, and folds the themes
extracted from the crisis input into the theme list; only the built prompt
is replaced by the safety template. -/
theorem safety_gate_frame (s : SculptureState) (hour : Nat)
    (interactionState userInput emotionalTone : String) (visitorInteractionCount : Nat)
    (h : containsCrisis userInput = true) :
    ((generateStep s hour interactionState userInput emotionalTone visitorInteractionCount).1.interactionCount
        = s.interactionCount + 1)
    ∧ ((generateStep s hour interactionState userInput emotionalTone visitorInteractionCount).1.currentMood
        = get_current_mood hour)
    ∧ ((generateStep s hour interactionState userInput emotionalTone visitorInteractionCount).1.currentThemes
        = (extract_themes userInput).foldl add_theme s.currentThemes)
    ∧ ((generateStep s hour interactionState userInput emotionalTone visitorInteractionCount).2
        = safetyTemplate userInput) := by
  refine ⟨rfl, rfl, rfl, ?_⟩
  simp [generateStep, build_context, h]

/-- C10 witness: a concrete crisis turn still mutates the whole session
state while the returned prompt is the safety template. -/
theorem safety_gate_frame_witness :
    containsCrisis "i want to die" = true
    ∧ (((generateStep (initState 12) 12 "first_contact" "i want to die" "sad" 1).1.interactionCount
          = (initState 12).interactionCount + 1)
      ∧ ((generateStep (initState 12) 12 "first_contact" "i want to die" "sad" 1).1.currentMood
          = get_current_mood 12)
      ∧ ((generateStep (initState 12) 12 "first_contact" "i want to die" "sad" 1).1.currentThemes
          = (extract_themes "i want to die").foldl add_theme (initState 12).currentThemes)
      ∧ ((generateStep (initState 12) 12 "first_contact" "i want to die" "sad" 1).2
          = safetyTemplate "i want to die")) :=
  ⟨by decide,
   safety_gate_frame (initState 12) 12 "first_contact" "i want to die" "sad" 1 (by decide)⟩

/-- C5 counterexample: the round trip fails as stated.  For the response
`"*a\nb*"`, `clean_response_text` removes the whole span (the `re.sub`
pattern `[^*]*` matches the newline) while `extract_lighting_cues` captures
nothing (the `re.findall` pattern `.` does not match the newline), so no
placement of the extracted cues into the cleaned text can reconstruct the
original even modulo the asterisk delimiter characters. -/
theorem lighting_roundtrip_cex :
    ¬ ∃ plains : List (List Char),
        plains.length = (extract_lighting_cues "*a\nb*").length + 1
        ∧ (clean_response_text "*a\nb*").data = plains.flatten
        ∧ delStar (interleave plains ((extract_lighting_cues "*a\nb*").map String.data))
            = delStar "*a\nb*".data := by
  rintro ⟨plains, h1, h2, h3⟩
  have hc : extract_lighting_cues "*a\nb*" = [] := by decide
  rw [hc] at h1 h3
  simp only [List.length_nil, Nat.zero_add] at h1
  obtain ⟨p, rfl⟩ : ∃ p, plains = [p] := by
    cases plains with
    | nil => simp at h1
    | cons p ps =>
      cases ps with
      | nil => exact ⟨p, rfl⟩
      | cons q qs => simp at h1
  have hcl : (clean_response_text "*a\nb*").data = [] := by decide
  rw [hcl] at h2
  have hp : p = [] := by simpa using h2.symm
  subst hp
  simp only [List.map_nil, interleave] at h3
  exact absurd h3 (by decide)

/-- C5 (amended): for every response that contains no newline character and
whose cue-stripped text has no leading or trailing whitespace (so that
`.strip()` is the identity on it), the round trip holds exactly: there is a
decomposition of the cleaned display text into plain segments (one more
segment than there are cues) such that re-inserting the extracted cues,
wrapped in their asterisk delimiters, between those segments reconstructs
the original response. -/
theorem lighting_roundtrip (s : String)
    (h1 : '\n' ∉ s.data)
    (h2 : pyStrip (cleanAux none s.data) = cleanAux none s.data) :
    ∃ plains : List (List Char),
      plains.length = (extract_lighting_cues s).length + 1
      ∧ (clean_response_text s).data = plains.flatten
      ∧ interleave plains ((extract_lighting_cues s).map String.data) = s.data := by
  have hmk : ∀ l : List (List Char), (l.map String.mk).map String.data = l := by
    intro l
    induction l with
    | nil => rfl
    | cons a as ih =>
      show String.data (String.mk a) :: (as.map String.mk).map String.data = a :: as
      rw [ih]
  have hcues : (extract_lighting_cues s).map String.data = (splitAux none s.data).2 := by
    rw [extract_lighting_cues, hmk (cuesAux none s.data)]
    exact ((splitAux_cues s.data h1).1).symm
  refine ⟨(splitAux none s.data).1, ?_, ?_, ?_⟩
  · have hlen := (splitAux_length s.data).1
    have : (extract_lighting_cues s).length = (splitAux none s.data).2.length := by
      rw [← hcues, List.length_map]
    rw [this, hlen]
  · rw [clean_response_text, h2, (splitAux_join s.data).1]
  · rw [hcues]
    exact (splitAux_interleave s.data).1

/-- C5 witness: the round trip at the concrete response
`"hi *glow* yo"`. -/
theorem lighting_roundtrip_witness :
    ('\n' ∉ "hi *glow* yo".data
      ∧ pyStrip (cleanAux none "hi *glow* yo".data) = cleanAux none "hi *glow* yo".data)
    ∧ ∃ plains : List (List Char),
        plains.length = (extract_lighting_cues "hi *glow* yo").length + 1
        ∧ (clean_response_text "hi *glow* yo").data = plains.flatten
        ∧ interleave plains ((extract_lighting_cues "hi *glow* yo").map String.data)
            = "hi *glow* yo".data :=
  ⟨⟨by decide, by decide⟩, lighting_roundtrip "hi *glow* yo" (by decide) (by decide)⟩
